import Mathlib

/-!
Shallow embedding of the MirrorMarkets trading-authority adapter
(`src/services/api/src/adapters/trading-authority.factory.ts`): the
`DynamicServerWalletProvider`, its resilient retry client
`callDynamicWithRetry`, the audit helpers, and the
`getTradingAuthorityProvider` singleton factory.

Persistence (Prisma tables `serverWallet`, `wallet`, `copyProfile`,
`auditLog`) is modelled as an explicit `DB` state record.  Remote HTTP
attempts (`fetch`) are modelled by an oracle `Nat → HttpAttempt α`
giving the outcome of each attempt of one logical call.  Every provider
operation returns its result, the updated state, and the ordered list
of observable events (audit writes and logical remote calls), so that
ordering claims can be stated directly.
-/

namespace MirrorMarkets

-- ── Wallet records and persistence state ─────────────────────────────

inductive WalletStatus where
  | CREATING
  | READY
  | FAILED
deriving DecidableEq, Repr

structure WalletRecord where
  id : Nat
  userId : String
  dynamicServerWalletId : String
  address : String
  status : WalletStatus
deriving DecidableEq, Repr

inductive ProfileStatus where
  | ENABLED
  | PAUSED
  | DISABLED
deriving DecidableEq, Repr

structure CopyProfile where
  userId : String
  status : ProfileStatus
deriving DecidableEq, Repr

/-- A row of the compatibility `wallet` table (type `SERVER_WALLET`). -/
structure CompatWallet where
  userId : String
  address : String
deriving DecidableEq, Repr

inductive AuditAction where
  | SERVER_WALLET_CREATED
  | SERVER_WALLET_FAILED
  | OWNERSHIP_TRANSFERRED
  | SIGNING_REQUESTED
  | SIGNING_COMPLETED
  | SIGNING_FAILED
deriving DecidableEq, Repr

inductive AuditDetails where
  | signingRequested (correlationId operation : String)
  | signingCompleted (correlationId : String)
  | signingFailed (correlationId error : String)
  | walletCreated (dynamicWalletId address : String) (isRot : Bool)
  | walletFailedErr (error : String)
  | walletRevoked (reason walletId : String)
  | ownershipTransferred (oldAddress newAddress note : String)
deriving DecidableEq, Repr

structure AuditEntry where
  userId : String
  action : AuditAction
  details : AuditDetails
deriving DecidableEq, Repr

structure DB where
  serverWallets : List WalletRecord
  wallets : List CompatWallet
  copyProfiles : List CopyProfile
  auditLog : List AuditEntry
deriving DecidableEq, Repr

/-- `prisma.serverWallet.findUnique({ where: { userId } })`. -/
def findServerWallet (db : DB) (userId : String) : Option WalletRecord :=
  db.serverWallets.find? (fun w => w.userId == userId)

/-- `prisma.serverWallet.update({ where: { id }, data })`. -/
def updateServerWallet (db : DB) (id : Nat) (f : WalletRecord → WalletRecord) : DB :=
  { db with serverWallets := db.serverWallets.map (fun w => if w.id = id then f w else w) }

/-- `prisma.serverWallet.create`. -/
def insertServerWallet (db : DB) (w : WalletRecord) : DB :=
  { db with serverWallets := db.serverWallets ++ [w] }

/-- `prisma.wallet.upsert` keyed by `(userId, 'SERVER_WALLET')`. -/
def upsertCompatWallet (db : DB) (userId address : String) : DB :=
  let ws :=
    if db.wallets.any (fun w => w.userId == userId) then
      db.wallets.map (fun w => if w.userId == userId then { w with address := address } else w)
    else
      db.wallets ++ [{ userId := userId, address := address }]
  { db with wallets := ws }

/-- `prisma.auditLog.create` — append-only. -/
def appendAudit (db : DB) (e : AuditEntry) : DB :=
  { db with auditLog := db.auditLog ++ [e] }

/-- `prisma.copyProfile.updateMany({ where: { userId, status: ENABLED }, data: { status: PAUSED } })`. -/
def pauseEnabledProfiles (db : DB) (userId : String) : DB :=
  let ps := db.copyProfiles.map (fun p => if p.userId == userId ∧ p.status = .ENABLED then { p with status := .PAUSED } else p)
  { db with copyProfiles := ps }

-- ── Errors ───────────────────────────────────────────────────────────

inductive ErrorCode where
  | SERVER_WALLET_NOT_READY
  | SERVER_WALLET_CREATION_FAILED
  | RATE_LIMITED
  | SIGNING_UNAVAILABLE
  | NOT_FOUND
deriving DecidableEq, Repr

/-- A thrown JavaScript error: either a typed `AppError` or a plain `Error`. -/
inductive JsError where
  | appError (code : ErrorCode) (message : String) (status : Nat)
  | plain (message : String)
deriving DecidableEq, Repr

def JsError.message : JsError → String
  | .appError _ m _ => m
  | .plain m => m

/-- `wrapSigningError`: passes an `AppError` through, wraps anything else
in `SIGNING_UNAVAILABLE` with status 503. -/
def wrapSigningError : JsError → JsError
  | .appError c m s => .appError c m s
  | .plain m => .appError .SIGNING_UNAVAILABLE m 503

-- ── Remote responses ─────────────────────────────────────────────────

structure DynamicCreateWalletResponse where
  id : String
  address : String
  chain : String
  name : String
  status : String
deriving DecidableEq, Repr

structure DynamicSignResponse where
  signature : String
deriving DecidableEq, Repr

/-- Response of `sign-transaction`. -/
structure DynamicTxResponse where
  hash : String
  status : String
deriving DecidableEq, Repr

/-- Wallet info returned by `GET server-wallets/:id`. -/
structure WalletInfo where
  address : String
  status : String
deriving DecidableEq, Repr

-- ── Resilient retry client (`callDynamicWithRetry`) ──────────────────

def MAX_RETRIES : Nat := 3

def BASE_DELAY_MS : Nat := 500

/-- Outcome of one HTTP attempt of a logical Dynamic API call.
`rateLimited ra` is a 429 response whose `Retry-After` header holds `ra`
(absent when `none`); `httpError` is any other non-ok status; `networkError`
is a thrown fetch failure (network error or 15 s timeout). -/
inductive HttpAttempt (α : Type) where
  | rateLimited (retryAfter : Option Nat)
  | httpError (status : Nat) (body : String)
  | networkError (message : String)
  | success (value : α)

/-- Observable events of the retry loop: the HTTP attempts made (by index)
and the sleeps performed between them (milliseconds). -/
inductive RcEvent where
  | attemptEv (n : Nat)
  | sleepEv (ms : Nat)
deriving DecidableEq, Repr

structure CallOutcome (α : Type) where
  result : Except JsError α
  events : List RcEvent
deriving Repr

def httpFailMessage (method path : String) (status : Nat) (body : String) : String :=
  "Dynamic API " ++ method ++ " " ++ path ++ " failed: " ++ toString status ++ " " ++ body

/-- Loop body of `callDynamicWithRetry`; `fuel` is the number of loop
iterations still available (`MAX_RETRIES + 1 - attempt`). -/
def retryGo (method path : String) (responses : Nat → HttpAttempt α) :
    Nat → Nat → CallOutcome α
  | 0, _ =>
      { result := .error (.plain "Exhausted retries for Dynamic API call"), events := [] }
  | fuel + 1, attempt =>
      match responses attempt with
      | .rateLimited ra =>
          let delay := ra.getD 2 * 1000
          if attempt < MAX_RETRIES then
            let rest := retryGo method path responses fuel (attempt + 1)
            { result := rest.result,
              events := .attemptEv attempt :: .sleepEv delay :: rest.events }
          else
            { result := .error (.appError .RATE_LIMITED "Dynamic API rate limited" 429),
              events := [.attemptEv attempt] }
      | .httpError status body =>
          if attempt < MAX_RETRIES then
            let rest := retryGo method path responses fuel (attempt + 1)
            { result := rest.result,
              events := .attemptEv attempt :: .sleepEv (BASE_DELAY_MS * 2 ^ attempt) :: rest.events }
          else
            { result := .error (.plain (httpFailMessage method path status body)),
              events := [.attemptEv attempt] }
      | .networkError msg =>
          if attempt < MAX_RETRIES then
            let rest := retryGo method path responses fuel (attempt + 1)
            { result := rest.result,
              events := .attemptEv attempt :: .sleepEv (BASE_DELAY_MS * 2 ^ attempt) :: rest.events }
          else
            { result := .error (.plain msg), events := [.attemptEv attempt] }
      | .success v =>
          { result := .ok v, events := [.attemptEv attempt] }

/-- `callDynamicWithRetry`: up to `MAX_RETRIES + 1` attempts of one
logical call, with `Retry-After`-driven sleeps on 429 and exponential
backoff (`BASE_DELAY_MS * 2 ^ attempt`) on every other failure. -/
def callDynamicWithRetry (method path : String) (responses : Nat → HttpAttempt α) :
    CallOutcome α :=
  retryGo method path responses (MAX_RETRIES + 1) 0

-- ── Provider-level request/response types ────────────────────────────

structure EIP712TypedData where
  types : List (String × List (String × String))
  primaryType : String
  domain : List (String × String)
  message : List (String × String)
deriving DecidableEq, Repr

structure TransactionRequest where
  /-- The source field is named `to`, a reserved token here. -/
  toAddr : String
  data : String
  value : Option String
  chainId : Option Nat
deriving DecidableEq, Repr

inductive TxStatus where
  | submitted
  | confirmed
  | failed
deriving DecidableEq, Repr

structure TransactionResult where
  hash : String
  status : TxStatus
deriving DecidableEq, Repr

/-- `signMessage` accepts `string | Uint8Array`. -/
inductive MessagePayload where
  | str (s : String)
  | bytes (b : List Nat)
deriving DecidableEq, Repr

def byteHex (n : Nat) : String :=
  String.mk [Nat.digitChar (n / 16 % 16), Nat.digitChar (n % 16)]

/-- `Buffer.from(message).toString('hex')`. -/
def hexOfBytes (b : List Nat) : String :=
  String.join (b.map byteHex)

/-- The `messageStr` local of `signMessage`. -/
def messageStr : MessagePayload → String
  | .str s => s
  | .bytes b => hexOfBytes b

/-- The `encoding` field sent by `signMessage`. -/
def messageEncoding : MessagePayload → String
  | .str _ => "utf8"
  | .bytes _ => "hex"

-- ── Audit entry constructors (the audit helpers) ─────────────────────

/-- `auditSigningRequest`. -/
def reqEntry (userId correlationId operation : String) : AuditEntry :=
  { userId := userId, action := .SIGNING_REQUESTED,
    details := .signingRequested correlationId operation }

/-- `auditSigningComplete`. -/
def completedEntry (userId correlationId : String) : AuditEntry :=
  { userId := userId, action := .SIGNING_COMPLETED,
    details := .signingCompleted correlationId }

/-- `auditSigningFailed`. -/
def failedEntry (userId correlationId error : String) : AuditEntry :=
  { userId := userId, action := .SIGNING_FAILED,
    details := .signingFailed correlationId error }

-- ── Provider operation events ────────────────────────────────────────

/-- Observable provider events, in program order: audit writes and
logical remote calls (method and path). -/
inductive ProvEvent where
  | auditEv (e : AuditEntry)
  | remoteEv (method path : String)
deriving DecidableEq, Repr

structure OpOutcome (α : Type) where
  result : Except JsError α
  db : DB
  events : List ProvEvent
deriving Repr

-- ── requireReadyWallet ───────────────────────────────────────────────

def notReadyForSigning : JsError :=
  .appError .SERVER_WALLET_NOT_READY "Server wallet is not ready for signing" 503

/-- `requireReadyWallet`: throws `SERVER_WALLET_NOT_READY` unless a
record exists with status `READY`. -/
def requireReadyWallet (db : DB) (userId : String) : Except JsError WalletRecord :=
  match findServerWallet db userId with
  | some w => if w.status = .READY then .ok w else .error notReadyForSigning
  | none => .error notReadyForSigning

-- ── createServerWallet ───────────────────────────────────────────────

def ZERO_ADDRESS : String := "0x0000000000000000000000000000000000000000"

/-- Environment of one `createServerWallet` run: the remote attempt
oracle for `POST server-wallets`, the `randomUUID()` used for a
placeholder id on failure, and the persistence-assigned id of a newly
created row. -/
structure CreateEnv where
  createResponses : Nat → HttpAttempt DynamicCreateWalletResponse
  pendingId : String
  newRecordId : Nat

/-- The try/catch body of `createServerWallet` after the idempotent
short-circuit check (`sw` is the previously looked-up record). -/
def createServerWalletCore (db : DB) (userId : String) (isRot : Bool)
    (sw : Option WalletRecord) (env : CreateEnv) : OpOutcome String :=
  let call := callDynamicWithRetry "POST" "server-wallets" env.createResponses
  match call.result with
  | .ok created =>
      let db1 :=
        match sw with
        | some w =>
            updateServerWallet db w.id (fun r =>
              { r with dynamicServerWalletId := created.id,
                       address := created.address, status := .READY })
        | none =>
            insertServerWallet db
              { id := env.newRecordId, userId := userId,
                dynamicServerWalletId := created.id,
                address := created.address, status := .READY }
      let db2 := upsertCompatWallet db1 userId created.address
      let createdE : AuditEntry :=
        { userId := userId, action := .SERVER_WALLET_CREATED,
          details := .walletCreated created.id created.address isRot }
      { result := .ok created.address,
        db := appendAudit db2 createdE,
        events := [.remoteEv "POST" "server-wallets", .auditEv createdE] }
  | .error e =>
      let db1 :=
        match sw with
        | none =>
            insertServerWallet db
              { id := env.newRecordId, userId := userId,
                dynamicServerWalletId := "pending-" ++ env.pendingId,
                address := ZERO_ADDRESS, status := .FAILED }
        | some w => updateServerWallet db w.id (fun r => { r with status := .FAILED })
      let failedE : AuditEntry :=
        { userId := userId, action := .SERVER_WALLET_FAILED,
          details := .walletFailedErr e.message }
      { result := .error (.appError .SERVER_WALLET_CREATION_FAILED
          ("Failed to create server wallet: " ++ e.message) 503),
        db := appendAudit db1 failedE,
        events := [.remoteEv "POST" "server-wallets", .auditEv failedE] }

/-- `createServerWallet(userId, isRotation)`. -/
def createServerWallet (db : DB) (userId : String) (isRot : Bool)
    (env : CreateEnv) : OpOutcome String :=
  match findServerWallet db userId with
  | some w =>
      if w.status = .READY ∧ isRot = false then
        { result := .ok w.address, db := db, events := [] }
      else createServerWalletCore db userId isRot (some w) env
  | none => createServerWalletCore db userId isRot none env

-- ── getAddress ───────────────────────────────────────────────────────

structure GetAddressEnv where
  fetchResponses : Nat → HttpAttempt WalletInfo
  createEnv : CreateEnv

def stillCreating : JsError :=
  .appError .SERVER_WALLET_NOT_READY "Server wallet is still being created" 503

/-- `getAddress(userId)`. -/
def getAddress (db : DB) (userId : String) (env : GetAddressEnv) : OpOutcome String :=
  match findServerWallet db userId with
  | some w =>
      match w.status with
      | .READY => { result := .ok w.address, db := db, events := [] }
      | .CREATING =>
          let path := "server-wallets/" ++ w.dynamicServerWalletId
          let call := callDynamicWithRetry "GET" path env.fetchResponses
          match call.result with
          | .ok fresh =>
              if fresh.status = "active" ∨ fresh.status = "ready" then
                { result := .ok fresh.address,
                  db := updateServerWallet db w.id
                    (fun r => { r with status := .READY, address := fresh.address }),
                  events := [.remoteEv "GET" path] }
              else
                { result := .error stillCreating, db := db, events := [.remoteEv "GET" path] }
          | .error e =>
              { result := .error e, db := db, events := [.remoteEv "GET" path] }
      | .FAILED => createServerWallet db userId false env.createEnv
  | none => createServerWallet db userId false env.createEnv

-- ── Signing operations ───────────────────────────────────────────────

/-- `signTypedData(userId, typedData)`; `correlationId` is the fresh
`randomUUID()` minted at the top of the call. -/
def signTypedData (db : DB) (userId correlationId : String)
    (_typedData : EIP712TypedData)
    (signResponses : Nat → HttpAttempt DynamicSignResponse) : OpOutcome String :=
  match requireReadyWallet db userId with
  | .error e => { result := .error e, db := db, events := [] }
  | .ok sw =>
      let rq := reqEntry userId correlationId "signTypedData"
      let db1 := appendAudit db rq
      let path := "server-wallets/" ++ sw.dynamicServerWalletId ++ "/sign-typed-data"
      let call := callDynamicWithRetry "POST" path signResponses
      match call.result with
      | .ok r =>
          let ce := completedEntry userId correlationId
          { result := .ok r.signature, db := appendAudit db1 ce,
            events := [.auditEv rq, .remoteEv "POST" path, .auditEv ce] }
      | .error e =>
          let fe := failedEntry userId correlationId e.message
          { result := .error (wrapSigningError e), db := appendAudit db1 fe,
            events := [.auditEv rq, .remoteEv "POST" path, .auditEv fe] }

/-- `signMessage(userId, message)`. -/
def signMessage (db : DB) (userId correlationId : String)
    (_message : MessagePayload)
    (signResponses : Nat → HttpAttempt DynamicSignResponse) : OpOutcome String :=
  match requireReadyWallet db userId with
  | .error e => { result := .error e, db := db, events := [] }
  | .ok sw =>
      let rq := reqEntry userId correlationId "signMessage"
      let db1 := appendAudit db rq
      let path := "server-wallets/" ++ sw.dynamicServerWalletId ++ "/sign"
      let call := callDynamicWithRetry "POST" path signResponses
      match call.result with
      | .ok r =>
          let ce := completedEntry userId correlationId
          { result := .ok r.signature, db := appendAudit db1 ce,
            events := [.auditEv rq, .remoteEv "POST" path, .auditEv ce] }
      | .error e =>
          let fe := failedEntry userId correlationId e.message
          { result := .error (wrapSigningError e), db := appendAudit db1 fe,
            events := [.auditEv rq, .remoteEv "POST" path, .auditEv fe] }

/-- `executeTransaction(userId, tx)`. -/
def executeTransaction (db : DB) (userId correlationId : String)
    (_tx : TransactionRequest)
    (txResponses : Nat → HttpAttempt DynamicTxResponse) : OpOutcome TransactionResult :=
  match requireReadyWallet db userId with
  | .error e => { result := .error e, db := db, events := [] }
  | .ok sw =>
      let rq := reqEntry userId correlationId "executeTransaction"
      let db1 := appendAudit db rq
      let path := "server-wallets/" ++ sw.dynamicServerWalletId ++ "/sign-transaction"
      let call := callDynamicWithRetry "POST" path txResponses
      match call.result with
      | .ok r =>
          let ce := completedEntry userId correlationId
          let res : TransactionResult :=
            { hash := r.hash, status := if r.status = "confirmed" then .confirmed else .submitted }
          { result := .ok res,
            db := appendAudit db1 ce,
            events := [.auditEv rq, .remoteEv "POST" path, .auditEv ce] }
      | .error e =>
          let fe := failedEntry userId correlationId e.message
          { result := .error (wrapSigningError e), db := appendAudit db1 fe,
            events := [.auditEv rq, .remoteEv "POST" path, .auditEv fe] }

-- ── rotate / revoke ──────────────────────────────────────────────────

/-- `rotate(userId)`. -/
def rotate (db : DB) (userId : String) (env : CreateEnv) : OpOutcome Unit :=
  match findServerWallet db userId with
  | none =>
      { result := .error (.appError .NOT_FOUND "No server wallet to rotate" 404),
        db := db, events := [] }
  | some oldWallet =>
      let out := createServerWallet db userId true env
      match out.result with
      | .error e => { result := .error e, db := out.db, events := out.events }
      | .ok newAddress =>
          let oe : AuditEntry :=
            { userId := userId, action := .OWNERSHIP_TRANSFERRED,
              details := .ownershipTransferred oldWallet.address newAddress
                "Server wallet rotated — Proxy/Safe ownership transfer required" }
          { result := .ok (), db := appendAudit out.db oe,
            events := out.events ++ [.auditEv oe] }

/-- `revoke(userId)`. -/
def revoke (db : DB) (userId : String) : OpOutcome Unit :=
  match findServerWallet db userId with
  | none => { result := .ok (), db := db, events := [] }
  | some sw =>
      let db1 := updateServerWallet db sw.id (fun r => { r with status := .FAILED })
      let db2 := pauseEnabledProfiles db1 userId
      let re : AuditEntry :=
        { userId := userId, action := .SERVER_WALLET_FAILED,
          details := .walletRevoked "Wallet revoked" sw.dynamicServerWalletId }
      { result := .ok (), db := appendAudit db2 re, events := [.auditEv re] }

-- ── Provider selection factory ───────────────────────────────────────

inductive ProviderKind where
  | dynamicProvider
  | mockProvider
deriving DecidableEq, Repr

/-- A constructed provider instance; `prismaHandle` identifies the
persistence handle passed at construction. -/
structure ProviderInstance where
  kind : ProviderKind
  prismaHandle : Nat
deriving DecidableEq, Repr

structure FactoryConfig where
  DYNAMIC_API_KEY : Option String
  NODE_ENV : String
deriving DecidableEq, Repr

/-- JavaScript truthiness of the optional string `config.DYNAMIC_API_KEY`. -/
def keyTruthy : Option String → Bool
  | none => false
  | some s => !(s == "")

def chooseProvider (cfg : FactoryConfig) (prisma : Nat) : ProviderInstance :=
  if keyTruthy cfg.DYNAMIC_API_KEY ∧ cfg.NODE_ENV = "production" then
    { kind := .dynamicProvider, prismaHandle := prisma }
  else
    { kind := .mockProvider, prismaHandle := prisma }

/-- `getTradingAuthorityProvider(prisma)` acting on the module-level
`_provider` cache; returns the provider and the new cache state. -/
def getTradingAuthorityProvider (state : Option ProviderInstance)
    (cfg : FactoryConfig) (prisma : Nat) : ProviderInstance × Option ProviderInstance :=
  match state with
  | some p => (p, some p)
  | none =>
      let p := chooseProvider cfg prisma
      (p, some p)

/-- `resetTradingAuthorityProvider()`. -/
def resetTradingAuthorityProvider (_state : Option ProviderInstance) :
    Option ProviderInstance := none

-- ── Derived notions used by the verification statements ──────────────

/-- An attempt outcome that is a non-429 failure (non-ok HTTP status, or a
thrown network/timeout error). -/
def attemptFails : HttpAttempt α → Bool
  | .httpError _ _ => true
  | .networkError _ => true
  | _ => false

/-- The error such an attempt raises inside the retry loop. -/
def thrownError (method path : String) : HttpAttempt α → Option JsError
  | .httpError status body => some (.plain (httpFailMessage method path status body))
  | .networkError msg => some (.plain msg)
  | _ => none

def countAttempts (events : List RcEvent) : Nat :=
  (events.filter (fun e => match e with | .attemptEv _ => true | _ => false)).length

/-- Persistence well-formedness: `id` is a primary key of the
`serverWallet` table. -/
def WFdb (db : DB) : Prop :=
  db.serverWallets.Pairwise (fun a b => a.id ≠ b.id)

def isRequestedWith (e : AuditEntry) (cid : String) : Prop :=
  e.action = .SIGNING_REQUESTED ∧ ∃ op, e.details = .signingRequested cid op

def isCompletedWith (e : AuditEntry) (cid : String) : Prop :=
  e.action = .SIGNING_COMPLETED ∧ e.details = .signingCompleted cid

/-- Every `SIGNING_COMPLETED` entry in the log is preceded by a
`SIGNING_REQUESTED` entry with the same correlation id. -/
def completedAfterRequested (log : List AuditEntry) : Prop :=
  ∀ (j : Nat) (e : AuditEntry) (cid : String), log[j]? = some e → isCompletedWith e cid →
    ∃ (i : Nat) (e2 : AuditEntry), i < j ∧ log[i]? = some e2 ∧ isRequestedWith e2 cid

/-- `completedAfterRequested` restricted to the suffix appended by one
operation. -/
def goodTail (t : List AuditEntry) : Prop :=
  ∀ (j : Nat) (e : AuditEntry) (cid : String), t[j]? = some e → isCompletedWith e cid →
    ∃ (i : Nat) (e2 : AuditEntry), i < j ∧ t[i]? = some e2 ∧ isRequestedWith e2 cid

/-- One provider invocation, with the oracles and fresh values it uses. -/
inductive Op where
  | opGetAddress (userId : String) (env : GetAddressEnv)
  | opSignTypedData (userId cid : String) (td : EIP712TypedData)
      (sr : Nat → HttpAttempt DynamicSignResponse)
  | opSignMessage (userId cid : String) (msg : MessagePayload)
      (sr : Nat → HttpAttempt DynamicSignResponse)
  | opExecuteTransaction (userId cid : String) (tx : TransactionRequest)
      (tr : Nat → HttpAttempt DynamicTxResponse)
  | opRotate (userId : String) (env : CreateEnv)
  | opRevoke (userId : String)

def runOp (db : DB) : Op → DB
  | .opGetAddress u env => (getAddress db u env).db
  | .opSignTypedData u cid td sr => (signTypedData db u cid td sr).db
  | .opSignMessage u cid msg sr => (signMessage db u cid msg sr).db
  | .opExecuteTransaction u cid tx tr => (executeTransaction db u cid tx tr).db
  | .opRotate u env => (rotate db u env).db
  | .opRevoke u => (revoke db u).db

def runOps (db : DB) : List Op → DB
  | [] => db
  | op :: rest => runOps (runOp db op) rest

/-- The audit/remote-event envelope every signing operation must satisfy:
a `SIGNING_REQUESTED` entry is appended before the remote call, exactly
one terminal entry after it, both with the operation's correlation id. -/
def signingEnvelope (db : DB) (out : OpOutcome α) (userId cid operation : String) : Prop :=
  ∃ terminal method path,
    out.db.auditLog = db.auditLog ++ [reqEntry userId cid operation, terminal]
  ∧ out.events
      = [.auditEv (reqEntry userId cid operation), .remoteEv method path, .auditEv terminal]
  ∧ ((∃ v, out.result = .ok v) → terminal = completedEntry userId cid)
  ∧ (∀ e, out.result = .error e → ∃ em, terminal = failedEntry userId cid em)

-- ── Helper lemmas ────────────────────────────────────────────────────

lemma find_map_update (l : List WalletRecord) (uid : String) (w : WalletRecord)
    (f : WalletRecord → WalletRecord)
    (hfind : l.find? (fun r => r.userId == uid) = some w)
    (hid : l.Pairwise (fun a b => a.id ≠ b.id))
    (hf : (f w).userId = w.userId) :
    (l.map (fun r => if r.id = w.id then f r else r)).find? (fun r => r.userId == uid)
      = some (f w) := by
  induction l with
  | nil => simp at hfind
  | cons x xs ih =>
      rw [List.pairwise_cons] at hid
      rcases hx : x.userId == uid with _ | _
      · simp only [List.find?_cons, hx] at hfind
        have hmem : w ∈ xs := List.mem_of_find?_eq_some hfind
        have hne : x.id ≠ w.id := hid.1 w hmem
        simp only [List.map_cons, if_neg hne, List.find?_cons, hx]
        exact ih hfind hid.2
      · simp only [List.find?_cons, hx] at hfind
        obtain rfl : x = w := by simpa using hfind
        simp [List.find?_cons, hf, hx]

lemma find_append_of_none (l : List WalletRecord) (p : WalletRecord → Bool)
    (x : WalletRecord) (hl : l.find? p = none) (hx : p x = true) :
    (l ++ [x]).find? p = some x := by
  induction l with
  | nil => simp only [List.nil_append, List.find?_cons, hx]
  | cons y ys ih =>
      rw [List.find?_cons] at hl
      rcases hy : p y with _ | _
      · rw [hy] at hl
        simp only [List.cons_append, List.find?_cons, hy]
        exact ih hl
      · rw [hy] at hl
        simp at hl

lemma goodTail_nil : goodTail [] := by
  intro j e cid h
  simp at h

lemma goodTail_of_no_completed (t : List AuditEntry)
    (h : ∀ e ∈ t, e.action ≠ .SIGNING_COMPLETED) : goodTail t := by
  intro j e cid hj hc
  exact absurd hc.1 (h e (List.mem_iff_getElem?.mpr ⟨j, hj⟩))

lemma goodTail_pair (rq terminal : AuditEntry) (cid : String)
    (hrq : isRequestedWith rq cid)
    (hterm : ∀ cid2, isCompletedWith terminal cid2 → cid2 = cid)
    (hrqnc : rq.action ≠ .SIGNING_COMPLETED) :
    goodTail [rq, terminal] := by
  intro j e cid2 hj hc
  rcases j with _ | _ | j
  · obtain rfl : rq = e := by simpa using hj
    exact absurd hc.1 hrqnc
  · obtain rfl : terminal = e := by simpa using hj
    obtain rfl : cid2 = cid := hterm _ hc
    exact ⟨0, rq, by omega, by simp, hrq⟩
  · simp at hj

lemma completedAfterRequested_append (l t : List AuditEntry)
    (hl : completedAfterRequested l) (ht : goodTail t) :
    completedAfterRequested (l ++ t) := by
  intro j e cid hj hc
  by_cases hlt : j < l.length
  · rw [List.getElem?_append_left hlt] at hj
    obtain ⟨i, e2, hij, hi, hr⟩ := hl j e cid hj hc
    exact ⟨i, e2, hij, by rw [List.getElem?_append_left (by omega)]; exact hi, hr⟩
  · push_neg at hlt
    rw [List.getElem?_append_right hlt] at hj
    obtain ⟨i, e2, hij, hi, hr⟩ := ht (j - l.length) e cid hj hc
    refine ⟨l.length + i, e2, by omega, ?_, hr⟩
    rw [List.getElem?_append_right (by omega)]
    simpa using hi

-- ── Audit-log tails of each provider operation ───────────────────────

lemma auditTail_createServerWallet (db : DB) (userId : String) (isRot : Bool) (env : CreateEnv) :
    ∃ t, (createServerWallet db userId isRot env).db.auditLog = db.auditLog ++ t
       ∧ ∀ e ∈ t, e.action = .SERVER_WALLET_CREATED ∨ e.action = .SERVER_WALLET_FAILED := by
  unfold createServerWallet createServerWalletCore
  rcases hf : findServerWallet db userId with _ | w
  · rcases hc : (callDynamicWithRetry "POST" "server-wallets" env.createResponses).result with e | c
    all_goals simp only [hf, hc, appendAudit, insertServerWallet, upsertCompatWallet]
    all_goals refine ⟨_, rfl, ?_⟩
    all_goals simp
  · by_cases hr : (w.status = WalletStatus.READY ∧ isRot = false)
    · simp only [hf, if_pos hr]
      exact ⟨[], by simp, by simp⟩
    · rcases hc : (callDynamicWithRetry "POST" "server-wallets" env.createResponses).result with e | c
      all_goals simp only [hf, if_neg hr, hc, appendAudit, insertServerWallet,
        updateServerWallet, upsertCompatWallet]
      all_goals refine ⟨_, rfl, ?_⟩
      all_goals simp

lemma auditTail_getAddress (db : DB) (userId : String) (env : GetAddressEnv) :
    ∃ t, (getAddress db userId env).db.auditLog = db.auditLog ++ t
       ∧ ∀ e ∈ t, e.action = .SERVER_WALLET_CREATED ∨ e.action = .SERVER_WALLET_FAILED := by
  unfold getAddress
  rcases hf : findServerWallet db userId with _ | w
  · simp only [hf]
    exact auditTail_createServerWallet db userId false env.createEnv
  · rcases hs : w.status with _ | _ | _
    all_goals simp only [hf, hs]
    · rcases hc : (callDynamicWithRetry "GET" ("server-wallets/" ++ w.dynamicServerWalletId)
          env.fetchResponses).result with e | fresh
      · simp only [hc]
        exact ⟨[], by simp, by simp⟩
      · by_cases hok : (fresh.status = "active" ∨ fresh.status = "ready")
        · simp only [hc, if_pos hok, updateServerWallet]
          exact ⟨[], by simp, by simp⟩
        · simp only [hc, if_neg hok]
          exact ⟨[], by simp, by simp⟩
    · exact ⟨[], by simp, by simp⟩
    · exact auditTail_createServerWallet db userId false env.createEnv

lemma auditTail_rotate (db : DB) (userId : String) (env : CreateEnv) :
    ∃ t, (rotate db userId env).db.auditLog = db.auditLog ++ t
       ∧ ∀ e ∈ t, e.action = .SERVER_WALLET_CREATED ∨ e.action = .SERVER_WALLET_FAILED
            ∨ e.action = .OWNERSHIP_TRANSFERRED := by
  unfold rotate
  rcases hf : findServerWallet db userId with _ | old
  · simp only [hf]
    exact ⟨[], by simp, by simp⟩
  · obtain ⟨t, ht, hall⟩ := auditTail_createServerWallet db userId true env
    rcases hc : (createServerWallet db userId true env).result with e | na
    · simp only [hf, hc]
      exact ⟨t, ht, fun e he => (hall e he).elim Or.inl (fun h => Or.inr (Or.inl h))⟩
    · simp only [hf, hc, appendAudit]
      refine ⟨_, by rw [ht, List.append_assoc], ?_⟩
      intro e he
      rcases List.mem_append.mp he with h | h
      · exact (hall e h).elim Or.inl (fun h2 => Or.inr (Or.inl h2))
      · simp at h
        subst h
        simp

lemma auditTail_revoke (db : DB) (userId : String) :
    ∃ t, (revoke db userId).db.auditLog = db.auditLog ++ t
       ∧ ∀ e ∈ t, e.action = .SERVER_WALLET_FAILED := by
  unfold revoke
  rcases hf : findServerWallet db userId with _ | sw
  · simp only [hf]
    exact ⟨[], by simp, by simp⟩
  · simp only [hf, appendAudit, pauseEnabledProfiles, updateServerWallet]
    refine ⟨_, rfl, ?_⟩
    simp

lemma auditTail_signTypedData (db : DB) (u cid : String) (td : EIP712TypedData)
    (sr : Nat → HttpAttempt DynamicSignResponse) :
    ∃ t, (signTypedData db u cid td sr).db.auditLog = db.auditLog ++ t ∧ goodTail t := by
  unfold signTypedData
  rcases hr : requireReadyWallet db u with e | sw
  · simp only [hr]
    exact ⟨[], by simp, goodTail_nil⟩
  · rcases hc : (callDynamicWithRetry "POST"
        ("server-wallets/" ++ sw.dynamicServerWalletId ++ "/sign-typed-data") sr).result with e | r
    · simp only [hr, hc, appendAudit]
      refine ⟨[reqEntry u cid "signTypedData", failedEntry u cid e.message], by simp, ?_⟩
      apply goodTail_of_no_completed
      simp [reqEntry, failedEntry]
    · simp only [hr, hc, appendAudit]
      refine ⟨[reqEntry u cid "signTypedData", completedEntry u cid], by simp, ?_⟩
      refine goodTail_pair _ _ cid ⟨rfl, "signTypedData", rfl⟩ ?_ (by simp [reqEntry])
      intro cid2 hc2
      have hd := hc2.2
      simp only [completedEntry] at hd
      injection hd with h
      exact h.symm

lemma auditTail_signMessage (db : DB) (u cid : String) (msg : MessagePayload)
    (sr : Nat → HttpAttempt DynamicSignResponse) :
    ∃ t, (signMessage db u cid msg sr).db.auditLog = db.auditLog ++ t ∧ goodTail t := by
  unfold signMessage
  rcases hr : requireReadyWallet db u with e | sw
  · simp only [hr]
    exact ⟨[], by simp, goodTail_nil⟩
  · rcases hc : (callDynamicWithRetry "POST"
        ("server-wallets/" ++ sw.dynamicServerWalletId ++ "/sign") sr).result with e | r
    · simp only [hr, hc, appendAudit]
      refine ⟨[reqEntry u cid "signMessage", failedEntry u cid e.message], by simp, ?_⟩
      apply goodTail_of_no_completed
      simp [reqEntry, failedEntry]
    · simp only [hr, hc, appendAudit]
      refine ⟨[reqEntry u cid "signMessage", completedEntry u cid], by simp, ?_⟩
      refine goodTail_pair _ _ cid ⟨rfl, "signMessage", rfl⟩ ?_ (by simp [reqEntry])
      intro cid2 hc2
      have hd := hc2.2
      simp only [completedEntry] at hd
      injection hd with h
      exact h.symm

lemma auditTail_executeTransaction (db : DB) (u cid : String) (tx : TransactionRequest)
    (tr : Nat → HttpAttempt DynamicTxResponse) :
    ∃ t, (executeTransaction db u cid tx tr).db.auditLog = db.auditLog ++ t ∧ goodTail t := by
  unfold executeTransaction
  rcases hr : requireReadyWallet db u with e | sw
  · simp only [hr]
    exact ⟨[], by simp, goodTail_nil⟩
  · rcases hc : (callDynamicWithRetry "POST"
        ("server-wallets/" ++ sw.dynamicServerWalletId ++ "/sign-transaction") tr).result with e | r
    · simp only [hr, hc, appendAudit]
      refine ⟨[reqEntry u cid "executeTransaction", failedEntry u cid e.message], by simp, ?_⟩
      apply goodTail_of_no_completed
      simp [reqEntry, failedEntry]
    · simp only [hr, hc, appendAudit]
      refine ⟨[reqEntry u cid "executeTransaction", completedEntry u cid], by simp, ?_⟩
      refine goodTail_pair _ _ cid ⟨rfl, "executeTransaction", rfl⟩ ?_ (by simp [reqEntry])
      intro cid2 hc2
      have hd := hc2.2
      simp only [completedEntry] at hd
      injection hd with h
      exact h.symm

lemma completedAfterRequested_runOp (db : DB) (op : Op)
    (h : completedAfterRequested db.auditLog) :
    completedAfterRequested (runOp db op).auditLog := by
  rcases op with ⟨u, env⟩ | ⟨u, cid, td, sr⟩ | ⟨u, cid, msg, sr⟩ | ⟨u, cid, tx, tr⟩ | ⟨u, env⟩ | u
  · obtain ⟨t, ht, hall⟩ := auditTail_getAddress db u env
    simp only [runOp]
    rw [ht]
    refine completedAfterRequested_append _ _ h (goodTail_of_no_completed _ ?_)
    intro e he
    rcases hall e he with h1 | h1 <;> simp [h1]
  · obtain ⟨t, ht, hgood⟩ := auditTail_signTypedData db u cid td sr
    simp only [runOp]
    rw [ht]
    exact completedAfterRequested_append _ _ h hgood
  · obtain ⟨t, ht, hgood⟩ := auditTail_signMessage db u cid msg sr
    simp only [runOp]
    rw [ht]
    exact completedAfterRequested_append _ _ h hgood
  · obtain ⟨t, ht, hgood⟩ := auditTail_executeTransaction db u cid tx tr
    simp only [runOp]
    rw [ht]
    exact completedAfterRequested_append _ _ h hgood
  · obtain ⟨t, ht, hall⟩ := auditTail_rotate db u env
    simp only [runOp]
    rw [ht]
    refine completedAfterRequested_append _ _ h (goodTail_of_no_completed _ ?_)
    intro e he
    rcases hall e he with h1 | h1 | h1 <;> simp [h1]
  · obtain ⟨t, ht, hall⟩ := auditTail_revoke db u
    simp only [runOp]
    rw [ht]
    refine completedAfterRequested_append _ _ h (goodTail_of_no_completed _ ?_)
    intro e he
    simp [hall e he]

lemma completedAfterRequested_runOps (ops : List Op) :
    ∀ db : DB, completedAfterRequested db.auditLog →
      completedAfterRequested (runOps db ops).auditLog := by
  induction ops with
  | nil => intro db h; simpa [runOps] using h
  | cons op rest ih =>
      intro db h
      simp only [runOps]
      exact ih _ (completedAfterRequested_runOp db op h)

lemma requireReadyWallet_ok (db : DB) (u : String) (w : WalletRecord)
    (hw : findServerWallet db u = some w) (hready : w.status = .READY) :
    requireReadyWallet db u = .ok w := by
  unfold requireReadyWallet
  rw [hw]
  simp [hready]

lemma signingEnvelope_signTypedData (db : DB) (u cid : String) (w : WalletRecord)
    (td : EIP712TypedData) (sr : Nat → HttpAttempt DynamicSignResponse)
    (hw : findServerWallet db u = some w) (hready : w.status = .READY) :
    signingEnvelope db (signTypedData db u cid td sr) u cid "signTypedData" := by
  have hreq := requireReadyWallet_ok db u w hw hready
  unfold signTypedData
  rw [hreq]
  rcases hc : (callDynamicWithRetry "POST"
      ("server-wallets/" ++ w.dynamicServerWalletId ++ "/sign-typed-data") sr).result with e | r
  · simp only [hc]
    refine ⟨failedEntry u cid e.message, "POST",
      "server-wallets/" ++ w.dynamicServerWalletId ++ "/sign-typed-data",
      by simp [appendAudit], rfl, ?_, ?_⟩
    · rintro ⟨v, hv⟩
      cases hv
    · intro e2 _
      exact ⟨e.message, rfl⟩
  · simp only [hc]
    refine ⟨completedEntry u cid, "POST",
      "server-wallets/" ++ w.dynamicServerWalletId ++ "/sign-typed-data",
      by simp [appendAudit], rfl, fun _ => rfl, ?_⟩
    intro e2 he2
    cases he2

lemma signingEnvelope_signMessage (db : DB) (u cid : String) (w : WalletRecord)
    (msg : MessagePayload) (sr : Nat → HttpAttempt DynamicSignResponse)
    (hw : findServerWallet db u = some w) (hready : w.status = .READY) :
    signingEnvelope db (signMessage db u cid msg sr) u cid "signMessage" := by
  have hreq := requireReadyWallet_ok db u w hw hready
  unfold signMessage
  rw [hreq]
  rcases hc : (callDynamicWithRetry "POST"
      ("server-wallets/" ++ w.dynamicServerWalletId ++ "/sign") sr).result with e | r
  · simp only [hc]
    refine ⟨failedEntry u cid e.message, "POST",
      "server-wallets/" ++ w.dynamicServerWalletId ++ "/sign",
      by simp [appendAudit], rfl, ?_, ?_⟩
    · rintro ⟨v, hv⟩
      cases hv
    · intro e2 _
      exact ⟨e.message, rfl⟩
  · simp only [hc]
    refine ⟨completedEntry u cid, "POST",
      "server-wallets/" ++ w.dynamicServerWalletId ++ "/sign",
      by simp [appendAudit], rfl, fun _ => rfl, ?_⟩
    intro e2 he2
    cases he2

lemma signingEnvelope_executeTransaction (db : DB) (u cid : String) (w : WalletRecord)
    (tx : TransactionRequest) (tr : Nat → HttpAttempt DynamicTxResponse)
    (hw : findServerWallet db u = some w) (hready : w.status = .READY) :
    signingEnvelope db (executeTransaction db u cid tx tr) u cid "executeTransaction" := by
  have hreq := requireReadyWallet_ok db u w hw hready
  unfold executeTransaction
  rw [hreq]
  rcases hc : (callDynamicWithRetry "POST"
      ("server-wallets/" ++ w.dynamicServerWalletId ++ "/sign-transaction") tr).result with e | r
  · simp only [hc]
    refine ⟨failedEntry u cid e.message, "POST",
      "server-wallets/" ++ w.dynamicServerWalletId ++ "/sign-transaction",
      by simp [appendAudit], rfl, ?_, ?_⟩
    · rintro ⟨v, hv⟩
      cases hv
    · intro e2 _
      exact ⟨e.message, rfl⟩
  · simp only [hc]
    refine ⟨completedEntry u cid, "POST",
      "server-wallets/" ++ w.dynamicServerWalletId ++ "/sign-transaction",
      by simp [appendAudit], rfl, fun _ => rfl, ?_⟩
    intro e2 he2
    cases he2

-- ── Concrete fixtures used by the witness theorems ───────────────────

def emptyDB : DB :=
  { serverWallets := [], wallets := [], copyProfiles := [], auditLog := [] }

def readyW : WalletRecord :=
  { id := 1, userId := "u1", dynamicServerWalletId := "dsw-1",
    address := "0xaaa", status := .READY }

def dbReady : DB :=
  { serverWallets := [readyW], wallets := [],
    copyProfiles := [{ userId := "u1", status := .ENABLED }], auditLog := [] }

def tdSample : EIP712TypedData :=
  { types := [], primaryType := "Order", domain := [], message := [] }

def txSample : TransactionRequest :=
  { toAddr := "0xbbb", data := "0x", value := none, chainId := none }

def okSignOracle : Nat → HttpAttempt DynamicSignResponse :=
  fun _ => .success { signature := "0xsig" }

def okTxOracle : Nat → HttpAttempt DynamicTxResponse :=
  fun _ => .success { hash := "0xhash", status := "confirmed" }

def okCreateOracle : Nat → HttpAttempt DynamicCreateWalletResponse :=
  fun _ => .success { id := "dsw-2", address := "0xccc", chain := "EVM",
                      name := "mirror-u1", status := "active" }

def timeoutOracle {α : Type} : Nat → HttpAttempt α :=
  fun _ => .networkError "The operation timed out"

def creatingW : WalletRecord :=
  { id := 2, userId := "u2", dynamicServerWalletId := "dsw-3",
    address := ZERO_ADDRESS, status := .CREATING }

def dbCreating : DB :=
  { serverWallets := [creatingW], wallets := [], copyProfiles := [], auditLog := [] }

def activeInfoOracle : Nat → HttpAttempt WalletInfo :=
  fun _ => .success { address := "0xddd", status := "active" }

def sampleCreateEnv : CreateEnv :=
  { createResponses := okCreateOracle, pendingId := "p-1", newRecordId := 7 }

def envPollActive : GetAddressEnv :=
  { fetchResponses := activeInfoOracle, createEnv := sampleCreateEnv }

-- ── Claims ───────────────────────────────────────────────────────────

/-- C1: every signing operation (`signTypedData`, `signMessage`,
`executeTransaction`) invoked on a user with a `READY` wallet record
writes a `SIGNING_REQUESTED` audit entry before the remote call and
exactly one terminal entry (`SIGNING_COMPLETED` on success,
`SIGNING_FAILED` on failure) after it, both carrying the operation's
fresh correlation id; moreover, over any sequence of provider
operations, a `SIGNING_COMPLETED` entry is never appended to the audit
log without a previously appended matching `SIGNING_REQUESTED`. -/
theorem C1_signing_audit_order (db : DB) (userId cid : String) (w : WalletRecord)
    (td : EIP712TypedData) (msg : MessagePayload) (tx : TransactionRequest)
    (sr : Nat → HttpAttempt DynamicSignResponse)
    (tr : Nat → HttpAttempt DynamicTxResponse)
    (hw : findServerWallet db userId = some w) (hready : w.status = .READY) :
    signingEnvelope db (signTypedData db userId cid td sr) userId cid "signTypedData"
  ∧ signingEnvelope db (signMessage db userId cid msg sr) userId cid "signMessage"
  ∧ signingEnvelope db (executeTransaction db userId cid tx tr) userId cid "executeTransaction"
  ∧ (∀ (db0 : DB) (ops : List Op), completedAfterRequested db0.auditLog →
        completedAfterRequested (runOps db0 ops).auditLog) :=
  ⟨signingEnvelope_signTypedData db userId cid w td sr hw hready,
   signingEnvelope_signMessage db userId cid w msg sr hw hready,
   signingEnvelope_executeTransaction db userId cid w tx tr hw hready,
   fun db0 ops h => completedAfterRequested_runOps ops db0 h⟩

theorem C1_signing_audit_order_witness :
    (findServerWallet dbReady "u1" = some readyW ∧ readyW.status = .READY)
  ∧ signingEnvelope dbReady (signTypedData dbReady "u1" "cid-1" tdSample okSignOracle)
      "u1" "cid-1" "signTypedData" :=
  ⟨⟨by decide, by decide⟩,
   (C1_signing_audit_order dbReady "u1" "cid-1" readyW tdSample (.str "hello") txSample
      okSignOracle okTxOracle (by decide) (by decide)).1⟩

/-- C2: `getAddress(userId)`: with a `READY` record it returns that
record's address with no remote call and no state change; with a
`CREATING` record it polls the remote service once, promotes to `READY`
and returns the polled address on an `active`/`ready` response, and
fails with `SERVER_WALLET_NOT_READY` on any other successful poll
response; with no record it performs wallet creation and returns the
created address. -/
theorem C2_getAddress_cases (db : DB) (userId : String) (env : GetAddressEnv)
    (hwf : WFdb db) :
    (∀ w, findServerWallet db userId = some w → w.status = .READY →
        getAddress db userId env = { result := .ok w.address, db := db, events := [] })
  ∧ (∀ w fresh, findServerWallet db userId = some w → w.status = .CREATING →
        (callDynamicWithRetry "GET" ("server-wallets/" ++ w.dynamicServerWalletId)
            env.fetchResponses).result = .ok fresh →
        ((fresh.status = "active" ∨ fresh.status = "ready") →
            (getAddress db userId env).result = .ok fresh.address
          ∧ findServerWallet (getAddress db userId env).db userId
              = some { w with status := .READY, address := fresh.address }
          ∧ (getAddress db userId env).events
              = [.remoteEv "GET" ("server-wallets/" ++ w.dynamicServerWalletId)])
      ∧ (¬ (fresh.status = "active" ∨ fresh.status = "ready") →
          getAddress db userId env
            = { result := .error stillCreating, db := db,
                events := [.remoteEv "GET" ("server-wallets/" ++ w.dynamicServerWalletId)] }))
  ∧ (∀ created, findServerWallet db userId = none →
        (callDynamicWithRetry "POST" "server-wallets" env.createEnv.createResponses).result
          = .ok created →
        (getAddress db userId env).result = .ok created.address
      ∧ (getAddress db userId env).events
          = [.remoteEv "POST" "server-wallets",
             .auditEv { userId := userId, action := .SERVER_WALLET_CREATED,
                        details := .walletCreated created.id created.address false }]) := by
  refine ⟨?_, ?_, ?_⟩
  · intro w hw hs
    unfold getAddress
    rw [hw]
    simp [hs]
  · intro w fresh hw hs hc
    constructor
    · intro hok
      unfold getAddress
      rw [hw]
      simp only [hs, hc, if_pos hok, updateServerWallet]
      exact ⟨trivial, find_map_update db.serverWallets userId w _ hw hwf rfl, trivial⟩
    · intro hok
      unfold getAddress
      rw [hw]
      simp only [hs, hc, if_neg hok]
  · intro created hn hc
    unfold getAddress createServerWallet createServerWalletCore
    rw [hn]
    simp only [hn, hc, appendAudit, insertServerWallet, upsertCompatWallet]
    exact ⟨trivial, trivial⟩

theorem C2_getAddress_cases_witness :
    getAddress dbReady "u1" envPollActive = { result := .ok readyW.address, db := dbReady, events := [] }
  ∧ ((getAddress dbCreating "u2" envPollActive).result = .ok "0xddd"
      ∧ findServerWallet (getAddress dbCreating "u2" envPollActive).db "u2"
          = some { creatingW with status := .READY, address := "0xddd" }
      ∧ (getAddress dbCreating "u2" envPollActive).events
          = [.remoteEv "GET" ("server-wallets/" ++ creatingW.dynamicServerWalletId)])
  ∧ (getAddress emptyDB "u3" envPollActive).result = .ok "0xccc" := by
  refine ⟨?_, ?_, ?_⟩
  · exact (C2_getAddress_cases dbReady "u1" envPollActive (by simp [WFdb, dbReady])).1
      readyW (by decide) (by decide)
  · exact ((C2_getAddress_cases dbCreating "u2" envPollActive (by simp [WFdb, dbCreating])).2.1
      creatingW { address := "0xddd", status := "active" } (by decide) (by decide) rfl).1
      (Or.inl rfl)
  · exact ((C2_getAddress_cases emptyDB "u3" envPollActive (by simp [WFdb, emptyDB])).2.2
      { id := "dsw-2", address := "0xccc", chain := "EVM", name := "mirror-u1", status := "active" }
      (by decide) rfl).1

def failedW : WalletRecord :=
  { id := 3, userId := "u4", dynamicServerWalletId := "dsw-4",
    address := "0xeee", status := .FAILED }

def dbFailed : DB :=
  { serverWallets := [failedW], wallets := [], copyProfiles := [], auditLog := [] }

lemma requireReadyWallet_err (db : DB) (u : String)
    (h : ∀ w, findServerWallet db u = some w → w.status ≠ .READY) :
    requireReadyWallet db u = .error notReadyForSigning := by
  unfold requireReadyWallet
  rcases hf : findServerWallet db u with _ | w
  · rfl
  · simp [h w hf]

/-- C3 counterexample: with no wallet record, `signTypedData` fails with
`SERVER_WALLET_NOT_READY` and writes no audit entry at all, so not every
failure path writes an audit entry before propagating. -/
theorem C3_counterexample_not_ready_no_audit :
    (signTypedData emptyDB "u1" "cid-1" tdSample okSignOracle).result
        = .error notReadyForSigning
  ∧ (signTypedData emptyDB "u1" "cid-1" tdSample okSignOracle).db.auditLog = []
  ∧ (signTypedData emptyDB "u1" "cid-1" tdSample okSignOracle).events = [] :=
  ⟨rfl, rfl, rfl⟩

/-- C3 (amended): failure paths of a signing operation that occur after
the `SIGNING_REQUESTED` entry write a `SIGNING_FAILED` audit entry before
propagating the wrapped error; but when the operation fails with
`SignerNotReady` because the record is absent or not `READY`, the error
propagates before any audit entry is written. -/
theorem C3_amended_failure_audit (db : DB) (userId cid : String) (w : WalletRecord)
    (td : EIP712TypedData) (msg : MessagePayload) (tx : TransactionRequest)
    (sr : Nat → HttpAttempt DynamicSignResponse)
    (tr : Nat → HttpAttempt DynamicTxResponse) :
    ((∀ w2, findServerWallet db userId = some w2 → w2.status ≠ .READY) →
        signTypedData db userId cid td sr
          = { result := .error notReadyForSigning, db := db, events := [] }
      ∧ signMessage db userId cid msg sr
          = { result := .error notReadyForSigning, db := db, events := [] }
      ∧ executeTransaction db userId cid tx tr
          = { result := .error notReadyForSigning, db := db, events := [] })
  ∧ (findServerWallet db userId = some w → w.status = .READY →
      (∀ e, (callDynamicWithRetry "POST"
              ("server-wallets/" ++ w.dynamicServerWalletId ++ "/sign-typed-data") sr).result
            = .error e →
          (signTypedData db userId cid td sr).result = .error (wrapSigningError e)
        ∧ (signTypedData db userId cid td sr).db.auditLog
            = db.auditLog ++ [reqEntry userId cid "signTypedData",
                              failedEntry userId cid e.message])
      ∧ (∀ e, (callDynamicWithRetry "POST"
              ("server-wallets/" ++ w.dynamicServerWalletId ++ "/sign") sr).result
            = .error e →
          (signMessage db userId cid msg sr).result = .error (wrapSigningError e)
        ∧ (signMessage db userId cid msg sr).db.auditLog
            = db.auditLog ++ [reqEntry userId cid "signMessage",
                              failedEntry userId cid e.message])
      ∧ (∀ e, (callDynamicWithRetry "POST"
              ("server-wallets/" ++ w.dynamicServerWalletId ++ "/sign-transaction") tr).result
            = .error e →
          (executeTransaction db userId cid tx tr).result = .error (wrapSigningError e)
        ∧ (executeTransaction db userId cid tx tr).db.auditLog
            = db.auditLog ++ [reqEntry userId cid "executeTransaction",
                              failedEntry userId cid e.message])) := by
  constructor
  · intro hnr
    have hre := requireReadyWallet_err db userId hnr
    refine ⟨?_, ?_, ?_⟩
    · unfold signTypedData
      rw [hre]
    · unfold signMessage
      rw [hre]
    · unfold executeTransaction
      rw [hre]
  · intro hw hready
    have hre := requireReadyWallet_ok db userId w hw hready
    refine ⟨?_, ?_, ?_⟩
    · intro e hc
      unfold signTypedData
      rw [hre]
      simp only [hc]
      exact ⟨trivial, by simp [appendAudit]⟩
    · intro e hc
      unfold signMessage
      rw [hre]
      simp only [hc]
      exact ⟨trivial, by simp [appendAudit]⟩
    · intro e hc
      unfold executeTransaction
      rw [hre]
      simp only [hc]
      exact ⟨trivial, by simp [appendAudit]⟩

theorem C3_amended_failure_audit_witness :
    (signTypedData dbFailed "u4" "cid-2" tdSample okSignOracle
        = { result := .error notReadyForSigning, db := dbFailed, events := [] })
  ∧ ((signTypedData dbReady "u1" "cid-3" tdSample
        (timeoutOracle : Nat → HttpAttempt DynamicSignResponse)).result
        = .error (wrapSigningError (.plain "The operation timed out"))
      ∧ (signTypedData dbReady "u1" "cid-3" tdSample
          (timeoutOracle : Nat → HttpAttempt DynamicSignResponse)).db.auditLog
        = dbReady.auditLog ++ [reqEntry "u1" "cid-3" "signTypedData",
                               failedEntry "u1" "cid-3" "The operation timed out"]) := by
  constructor
  · exact ((C3_amended_failure_audit dbFailed "u4" "cid-2" failedW tdSample (.str "x") txSample
      okSignOracle okTxOracle).1
      (fun w2 h => by
        have h2 : some failedW = some w2 := h
        injection h2 with h3
        rw [← h3]
        decide)).1
  · exact (((C3_amended_failure_audit dbReady "u1" "cid-3" readyW tdSample (.str "x") txSample
      (timeoutOracle : Nat → HttpAttempt DynamicSignResponse) okTxOracle).2
      (by decide) (by decide)).1 (.plain "The operation timed out") rfl)

def envFailCreate : GetAddressEnv :=
  { fetchResponses := timeoutOracle,
    createEnv := { createResponses := timeoutOracle, pendingId := "p-2", newRecordId := 9 } }

/-- C4: when the remote wallet-creation call fails after retries are
exhausted, `getAddress` raises `SERVER_WALLET_CREATION_FAILED` carrying
the underlying cause in its message, the wallet record ends with status
`FAILED` (a placeholder record with the zero address is created if none
existed; an existing record keeps its previous address), and exactly one
`SERVER_WALLET_FAILED` audit entry is written. -/
theorem C4_creation_failure (db : DB) (userId : String) (env : GetAddressEnv) (e : JsError)
    (hwf : WFdb db)
    (hc : (callDynamicWithRetry "POST" "server-wallets" env.createEnv.createResponses).result
            = .error e) :
    (findServerWallet db userId = none →
        (getAddress db userId env).result
          = .error (.appError .SERVER_WALLET_CREATION_FAILED
              ("Failed to create server wallet: " ++ e.message) 503)
      ∧ findServerWallet (getAddress db userId env).db userId
          = some { id := env.createEnv.newRecordId, userId := userId,
                   dynamicServerWalletId := "pending-" ++ env.createEnv.pendingId,
                   address := ZERO_ADDRESS, status := .FAILED }
      ∧ (getAddress db userId env).db.auditLog
          = db.auditLog ++ [{ userId := userId, action := .SERVER_WALLET_FAILED,
                              details := .walletFailedErr e.message }])
  ∧ (∀ w, findServerWallet db userId = some w → w.status = .FAILED →
        (getAddress db userId env).result
          = .error (.appError .SERVER_WALLET_CREATION_FAILED
              ("Failed to create server wallet: " ++ e.message) 503)
      ∧ findServerWallet (getAddress db userId env).db userId
          = some { w with status := .FAILED }
      ∧ (getAddress db userId env).db.auditLog
          = db.auditLog ++ [{ userId := userId, action := .SERVER_WALLET_FAILED,
                              details := .walletFailedErr e.message }]) := by
  constructor
  · intro hn
    unfold getAddress createServerWallet createServerWalletCore
    rw [hn]
    simp only [hn, hc, appendAudit, insertServerWallet, upsertCompatWallet]
    refine ⟨trivial, ?_, by simp⟩
    unfold findServerWallet
    exact find_append_of_none db.serverWallets _ _ hn (by simp)
  · intro w hw hs
    unfold getAddress createServerWallet createServerWalletCore
    rw [hw]
    simp only [hs]
    rw [if_neg (by simp)]
    simp only [hs, hc, appendAudit, updateServerWallet, upsertCompatWallet]
    refine ⟨trivial, ?_, by simp⟩
    unfold findServerWallet
    have h2 := find_map_update db.serverWallets userId w
      (fun r => { r with status := .FAILED }) hw hwf rfl
    simpa using h2


theorem C4_creation_failure_witness :
    (getAddress emptyDB "u9" envFailCreate).result
        = .error (.appError .SERVER_WALLET_CREATION_FAILED
            ("Failed to create server wallet: " ++ (JsError.plain "The operation timed out").message) 503)
  ∧ findServerWallet (getAddress emptyDB "u9" envFailCreate).db "u9"
      = some { id := envFailCreate.createEnv.newRecordId, userId := "u9",
               dynamicServerWalletId := "pending-" ++ envFailCreate.createEnv.pendingId,
               address := ZERO_ADDRESS, status := .FAILED }
  ∧ (getAddress emptyDB "u9" envFailCreate).db.auditLog
      = emptyDB.auditLog ++ [{ userId := "u9", action := .SERVER_WALLET_FAILED,
                               details := .walletFailedErr (JsError.plain "The operation timed out").message }] :=
  (C4_creation_failure emptyDB "u9" envFailCreate (.plain "The operation timed out")
    (by simp [WFdb, emptyDB]) rfl).1 rfl

/-- C5: on HTTP 429 the retry client sleeps `Retry-After` seconds
(default 2 when the header is absent) before the next attempt, retries
up to `MAX_RETRIES`, and fails with `RATE_LIMITED` once retries are
exhausted; a 429 with `Retry-After: 3` yields a 3000 ms sleep between
attempt 0 and attempt 1. -/
theorem C5_rate_limit_retry_after (m p : String) (f : Nat → Option Nat)
    (resp429 : Nat → HttpAttempt DynamicSignResponse)
    (hall : ∀ i, resp429 i = .rateLimited (f i))
    (respOnce : Nat → HttpAttempt DynamicSignResponse) (v : DynamicSignResponse)
    (h0 : respOnce 0 = .rateLimited (f 0)) (h1 : respOnce 1 = .success v) :
    callDynamicWithRetry m p resp429
      = { result := .error (.appError .RATE_LIMITED "Dynamic API rate limited" 429),
          events := [.attemptEv 0, .sleepEv ((f 0).getD 2 * 1000),
                     .attemptEv 1, .sleepEv ((f 1).getD 2 * 1000),
                     .attemptEv 2, .sleepEv ((f 2).getD 2 * 1000),
                     .attemptEv 3] }
  ∧ callDynamicWithRetry m p respOnce
      = { result := .ok v,
          events := [.attemptEv 0, .sleepEv ((f 0).getD 2 * 1000), .attemptEv 1] } := by
  constructor
  · simp [callDynamicWithRetry, retryGo, MAX_RETRIES, hall]
  · simp [callDynamicWithRetry, retryGo, MAX_RETRIES, h0, h1]

def oracle429 : Nat → HttpAttempt DynamicSignResponse :=
  fun _ => .rateLimited (some 3)

def oracle429Once : Nat → HttpAttempt DynamicSignResponse :=
  fun i => if i = 0 then .rateLimited (some 3) else .success { signature := "0xsig" }

theorem C5_rate_limit_retry_after_witness :
    callDynamicWithRetry "POST" "server-wallets" oracle429
      = { result := .error (.appError .RATE_LIMITED "Dynamic API rate limited" 429),
          events := [.attemptEv 0, .sleepEv 3000, .attemptEv 1, .sleepEv 3000,
                     .attemptEv 2, .sleepEv 3000, .attemptEv 3] }
  ∧ callDynamicWithRetry "POST" "server-wallets" oracle429Once
      = { result := .ok { signature := "0xsig" },
          events := [.attemptEv 0, .sleepEv 3000, .attemptEv 1] } :=
  C5_rate_limit_retry_after "POST" "server-wallets" (fun _ => some 3)
    oracle429 (fun _ => rfl) oracle429Once { signature := "0xsig" } rfl rfl

lemma countAttempts_retryGo (m p : String) (resp : Nat → HttpAttempt α) :
    ∀ fuel attempt, countAttempts (retryGo m p resp fuel attempt).events ≤ fuel := by
  intro fuel
  induction fuel with
  | zero => intro a; simp [retryGo, countAttempts]
  | succ n ih =>
      intro a
      have hn := ih (a + 1)
      rcases h : resp a with ra | ⟨st, b⟩ | msg | v
      all_goals by_cases ha : a < MAX_RETRIES
      all_goals simp [retryGo, h, ha, countAttempts, List.filter] at hn ⊢
      all_goals omega

/-- C6: for non-429 failures the retry client backs off
`BASE_DELAY_MS * 2 ^ attempt` (base 500 ms), makes at most 3 retries
(4 total tries), and after exhausting retries propagates the underlying
error of the final attempt unchanged — never reclassified into an
`AppError` domain error. -/
theorem C6_backoff_and_propagation (m p : String)
    (resp : Nat → HttpAttempt DynamicSignResponse)
    (hfail : ∀ i, i ≤ MAX_RETRIES → attemptFails (resp i) = true) :
    (∃ e, thrownError m p (resp 3) = some e
       ∧ (callDynamicWithRetry m p resp).result = .error e
       ∧ ∀ c msg s, e ≠ .appError c msg s)
  ∧ (callDynamicWithRetry m p resp).events
      = [.attemptEv 0, .sleepEv (BASE_DELAY_MS * 2 ^ 0),
         .attemptEv 1, .sleepEv (BASE_DELAY_MS * 2 ^ 1),
         .attemptEv 2, .sleepEv (BASE_DELAY_MS * 2 ^ 2),
         .attemptEv 3]
  ∧ (∀ g : Nat → HttpAttempt DynamicSignResponse,
      countAttempts (callDynamicWithRetry m p g).events ≤ MAX_RETRIES + 1) := by
  refine ⟨?_, ?_, fun g => countAttempts_retryGo m p g (MAX_RETRIES + 1) 0⟩
  all_goals
    have h0 := hfail 0 (by simp [MAX_RETRIES])
    have h1 := hfail 1 (by simp [MAX_RETRIES])
    have h2 := hfail 2 (by simp [MAX_RETRIES])
    have h3 := hfail 3 (by simp [MAX_RETRIES])
    rcases e0 : resp 0 with ra | ⟨st0, b0⟩ | m0 | v
    all_goals simp only [e0, attemptFails, Bool.false_eq_true] at h0
    all_goals rcases e1 : resp 1 with ra | ⟨st1, b1⟩ | m1 | v
    all_goals simp only [e1, attemptFails, Bool.false_eq_true] at h1
    all_goals rcases e2 : resp 2 with ra | ⟨st2, b2⟩ | m2 | v
    all_goals simp only [e2, attemptFails, Bool.false_eq_true] at h2
    all_goals rcases e3 : resp 3 with ra | ⟨st3, b3⟩ | m3 | v
    all_goals simp only [e3, attemptFails, Bool.false_eq_true] at h3
    all_goals simp [callDynamicWithRetry, retryGo, MAX_RETRIES, e0, e1, e2, e3,
      thrownError, BASE_DELAY_MS]

theorem C6_backoff_and_propagation_witness :
    (callDynamicWithRetry "POST" "server-wallets"
        (timeoutOracle : Nat → HttpAttempt DynamicSignResponse)).result
      = .error (.plain "The operation timed out")
  ∧ (callDynamicWithRetry "POST" "server-wallets"
        (timeoutOracle : Nat → HttpAttempt DynamicSignResponse)).events
      = [.attemptEv 0, .sleepEv 500, .attemptEv 1, .sleepEv 1000,
         .attemptEv 2, .sleepEv 2000, .attemptEv 3] := by
  obtain ⟨⟨e, he1, he2, _⟩, hev, _⟩ :=
    C6_backoff_and_propagation "POST" "server-wallets"
      (timeoutOracle : Nat → HttpAttempt DynamicSignResponse) (fun i _ => rfl)
  have he : e = .plain "The operation timed out" := by
    have h3 : thrownError "POST" "server-wallets"
        ((timeoutOracle : Nat → HttpAttempt DynamicSignResponse) 3)
        = some (.plain "The operation timed out") := rfl
    rw [h3] at he1
    exact (Option.some.inj he1).symm
  rw [he] at he2
  exact ⟨he2, by simpa using hev⟩

/-- C7 counterexample: `revoke` on an already-`FAILED` record is not a
no-op — it succeeds but writes a `SERVER_WALLET_FAILED` audit entry, so
the resulting state differs from the initial one. -/
theorem C7_counterexample_revoke_failed_not_noop :
    (revoke dbFailed "u4").result = .ok ()
  ∧ (revoke dbFailed "u4").db ≠ dbFailed
  ∧ (revoke dbFailed "u4").db.auditLog
      = [{ userId := "u4", action := .SERVER_WALLET_FAILED,
           details := .walletRevoked "Wallet revoked" "dsw-4" }] :=
  ⟨rfl, by decide, rfl⟩

/-- C7 (amended): `revoke` on a user with no wallet record is a no-op
(no error, no audit entry, no state change); `revoke` on any existing
record — `READY` or already `FAILED` — sets its status to `FAILED`,
pauses every `ENABLED` dependent automation of that user, and writes a
`SERVER_WALLET_FAILED` audit entry. -/
theorem C7_amended_revoke (db : DB) (userId : String) (hwf : WFdb db) :
    (findServerWallet db userId = none →
        revoke db userId = { result := .ok (), db := db, events := [] })
  ∧ (∀ w, findServerWallet db userId = some w →
        (revoke db userId).result = .ok ()
      ∧ findServerWallet (revoke db userId).db userId = some { w with status := .FAILED }
      ∧ (revoke db userId).db.copyProfiles
          = db.copyProfiles.map
              (fun pr => if pr.userId == userId ∧ pr.status = .ENABLED
                         then { pr with status := .PAUSED } else pr)
      ∧ (revoke db userId).db.auditLog
          = db.auditLog ++ [{ userId := userId, action := .SERVER_WALLET_FAILED,
                              details := .walletRevoked "Wallet revoked" w.dynamicServerWalletId }]) := by
  constructor
  · intro hn
    unfold revoke
    rw [hn]
  · intro w hw
    unfold revoke
    rw [hw]
    simp only [appendAudit, pauseEnabledProfiles, updateServerWallet]
    refine ⟨trivial, ?_, by simp, by simp⟩
    unfold findServerWallet
    have h2 := find_map_update db.serverWallets userId w
      (fun r => { r with status := .FAILED }) hw hwf rfl
    simpa using h2

theorem C7_amended_revoke_witness :
    revoke emptyDB "nobody" = { result := .ok (), db := emptyDB, events := [] }
  ∧ ((revoke dbReady "u1").result = .ok ()
      ∧ findServerWallet (revoke dbReady "u1").db "u1" = some { readyW with status := .FAILED }
      ∧ (revoke dbReady "u1").db.copyProfiles
          = dbReady.copyProfiles.map
              (fun pr => if pr.userId == "u1" ∧ pr.status = .ENABLED
                         then { pr with status := .PAUSED } else pr)
      ∧ (revoke dbReady "u1").db.auditLog
          = dbReady.auditLog ++ [{ userId := "u1", action := .SERVER_WALLET_FAILED,
                                   details := .walletRevoked "Wallet revoked" readyW.dynamicServerWalletId }]) :=
  ⟨(C7_amended_revoke emptyDB "nobody" (by simp [WFdb, emptyDB])).1 rfl,
   (C7_amended_revoke dbReady "u1" (by simp [WFdb, dbReady])).2 readyW (by decide)⟩

/-- C8: `getTradingAuthorityProvider` is a process-wide singleton: once
the cache holds a provider, every later call returns that same instance
whatever the configuration or persistence handle passed; the choice of
implementation (remote-backed iff a live credential is configured and
the process runs in production mode) is made only on the first call. -/
theorem C8_provider_singleton (cfg1 cfg2 : FactoryConfig) (pr1 pr2 : Nat) (p : ProviderInstance) :
    getTradingAuthorityProvider (some p) cfg2 pr2 = (p, some p)
  ∧ getTradingAuthorityProvider (getTradingAuthorityProvider none cfg1 pr1).2 cfg2 pr2
      = ((getTradingAuthorityProvider none cfg1 pr1).1,
         (getTradingAuthorityProvider none cfg1 pr1).2)
  ∧ ((getTradingAuthorityProvider none cfg1 pr1).1.kind = .dynamicProvider
      ↔ (keyTruthy cfg1.DYNAMIC_API_KEY = true ∧ cfg1.NODE_ENV = "production")) := by
  refine ⟨rfl, rfl, ?_⟩
  unfold getTradingAuthorityProvider chooseProvider
  by_cases h : (keyTruthy cfg1.DYNAMIC_API_KEY = true ∧ cfg1.NODE_ENV = "production")
  · simp [h]
  · simp [h]

/-- C9: `rotate(userId)` with no existing wallet record fails with
`NOT_FOUND` and provisions nothing; with an existing record and a
successful remote creation it replaces the record with the new wallet
and appends an `OWNERSHIP_TRANSFERRED` audit entry carrying the old and
new addresses. -/
theorem C9_rotate (db : DB) (userId : String) (env : CreateEnv) (hwf : WFdb db) :
    (findServerWallet db userId = none →
        rotate db userId env
          = { result := .error (.appError .NOT_FOUND "No server wallet to rotate" 404),
              db := db, events := [] })
  ∧ (∀ old created, findServerWallet db userId = some old →
        (callDynamicWithRetry "POST" "server-wallets" env.createResponses).result = .ok created →
        (rotate db userId env).result = .ok ()
      ∧ findServerWallet (rotate db userId env).db userId
          = some { old with dynamicServerWalletId := created.id,
                            address := created.address, status := .READY }
      ∧ (rotate db userId env).db.auditLog
          = db.auditLog
            ++ [{ userId := userId, action := .SERVER_WALLET_CREATED,
                  details := .walletCreated created.id created.address true },
                { userId := userId, action := .OWNERSHIP_TRANSFERRED,
                  details := .ownershipTransferred old.address created.address
                    "Server wallet rotated — Proxy/Safe ownership transfer required" }]) := by
  constructor
  · intro hn
    unfold rotate
    rw [hn]
  · intro old created hw hc
    unfold rotate createServerWallet createServerWalletCore
    rw [hw]
    dsimp only
    rw [if_neg (show ¬(old.status = WalletStatus.READY ∧ true = false) by simp)]
    simp only [hc, appendAudit, updateServerWallet, upsertCompatWallet]
    refine ⟨trivial, ?_, by simp⟩
    unfold findServerWallet
    have h2 := find_map_update db.serverWallets userId old
      (fun r => { r with dynamicServerWalletId := created.id, address := created.address, status := .READY })
      hw hwf rfl
    simpa using h2

theorem C9_rotate_witness :
    rotate emptyDB "nobody" sampleCreateEnv
      = { result := .error (.appError .NOT_FOUND "No server wallet to rotate" 404),
          db := emptyDB, events := [] }
  ∧ ((rotate dbReady "u1" sampleCreateEnv).result = .ok ()
      ∧ findServerWallet (rotate dbReady "u1" sampleCreateEnv).db "u1"
          = some { readyW with dynamicServerWalletId := "dsw-2", address := "0xccc", status := .READY }
      ∧ (rotate dbReady "u1" sampleCreateEnv).db.auditLog
          = dbReady.auditLog
            ++ [{ userId := "u1", action := .SERVER_WALLET_CREATED,
                  details := .walletCreated "dsw-2" "0xccc" true },
                { userId := "u1", action := .OWNERSHIP_TRANSFERRED,
                  details := .ownershipTransferred readyW.address "0xccc"
                    "Server wallet rotated — Proxy/Safe ownership transfer required" }]) :=
  ⟨(C9_rotate emptyDB "nobody" sampleCreateEnv (by simp [WFdb, emptyDB])).1 rfl,
   (C9_rotate dbReady "u1" sampleCreateEnv (by simp [WFdb, dbReady])).2 readyW
     { id := "dsw-2", address := "0xccc", chain := "EVM", name := "mirror-u1", status := "active" }
     (by decide) rfl⟩

/-- C10: `executeTransaction` never returns a result with status
`failed`: when it succeeds, the returned status is `confirmed` exactly
when the remote status string equals "confirmed", and `submitted`
otherwise. -/
theorem C10_executeTransaction_status (db : DB) (userId cid : String)
    (tx : TransactionRequest) (tr : Nat → HttpAttempt DynamicTxResponse) :
    (∀ res, (executeTransaction db userId cid tx tr).result = .ok res → res.status ≠ .failed)
  ∧ (∀ w v, findServerWallet db userId = some w → w.status = .READY →
        (callDynamicWithRetry "POST"
            ("server-wallets/" ++ w.dynamicServerWalletId ++ "/sign-transaction") tr).result
          = .ok v →
        (executeTransaction db userId cid tx tr).result
          = .ok { hash := v.hash,
                  status := if v.status = "confirmed" then .confirmed else .submitted }) := by
  constructor
  · intro res hres
    unfold executeTransaction at hres
    rcases hr : requireReadyWallet db userId with e | sw
    all_goals rw [hr] at hres
    all_goals dsimp only at hres
    · cases hres
    · rcases hc : (callDynamicWithRetry "POST"
          ("server-wallets/" ++ sw.dynamicServerWalletId ++ "/sign-transaction") tr).result
          with e | r
      all_goals rw [hc] at hres
      all_goals dsimp only at hres
      · cases hres
      · have hX : res = { hash := r.hash, status := if r.status = "confirmed" then TxStatus.confirmed else TxStatus.submitted } :=
          (Except.ok.inj hres).symm
        rw [hX]
        by_cases hcs : r.status = "confirmed" <;> simp [hcs]
  · intro w v hw hready hc
    have hre := requireReadyWallet_ok db userId w hw hready
    unfold executeTransaction
    rw [hre]
    simp only [hc]

theorem C10_executeTransaction_status_witness :
    (executeTransaction dbReady "u1" "cid-4" txSample okTxOracle).result
      = .ok { hash := "0xhash", status := .confirmed }
  ∧ ({ hash := "0xhash", status := TxStatus.confirmed } : TransactionResult).status ≠ .failed := by
  have h2 := (C10_executeTransaction_status dbReady "u1" "cid-4" txSample okTxOracle).2
    readyW { hash := "0xhash", status := "confirmed" } (by decide) (by decide) rfl
  have h1 := (C10_executeTransaction_status dbReady "u1" "cid-4" txSample okTxOracle).1
    { hash := "0xhash", status := .confirmed } (by simpa using h2)
  exact ⟨by simpa using h2, h1⟩

end MirrorMarkets
